import Mathlib

/-!
Shallow embedding of the azure-ulib-c ustream core.

The repository sources available here contain the interface header
`src/inc/az_ulib_ustream_base.h` (the `az_ulib_ustream_interface` vtable, the
`az_ulib_ustream_data_cb` control block, the `az_ulib_ustream` instance struct,
the `AZ_ULIB_USTREAM_IS_NOT_TYPE_OF` macro, and the eight `static inline`
public wrappers) together with unit tests that call the providers.  The
concrete provider implementations (`az_ulib_ustream.c` for the flat provider
and the multi/concat provider) are not among the sources, so their operations
are modelled from the specification; every such definition is marked
`Modelled from the spec:` in its doc comment.

Pointers are modelled with `Option`: `none` is the C `NULL`.  Dereferencing
`none` (undefined behavior in C) is modelled by the wrapper functions
returning `none` as their overall outcome.  Vtable identity ("pointer
comparison against the provider's singleton vtable") is modelled by a
numeric pointer value.  Machine positions (`size_t`/`offset_t`) are modelled
as `Nat` with the unsigned domain bound `size_mod = 2 ^ 64` made explicit
where overflow matters (the clone overflow check, the clone offset mapping,
and `get_position`).
-/

/-- The `az_ulib_result` codes used by the ustream interface
(from `az_ulib_result.h`, referenced throughout `az_ulib_ustream_base.h`). -/
inductive az_ulib_result where
  | AZ_ULIB_SUCCESS
  | AZ_ULIB_BUSY_ERROR
  | AZ_ULIB_CANCELLED_ERROR
  | AZ_ULIB_EOF
  | AZ_ULIB_ILLEGAL_ARGUMENT_ERROR
  | AZ_ULIB_NO_SUCH_ELEMENT_ERROR
  | AZ_ULIB_OUT_OF_MEMORY_ERROR
  | AZ_ULIB_SECURITY_ERROR
  | AZ_ULIB_SYSTEM_ERROR
  deriving DecidableEq, Repr

open az_ulib_result

/-- The unsigned position domain: `offset_t`/`size_t` are 64-bit unsigned. -/
def size_mod : Nat := 2 ^ 64

/-- A release event recorded when a control block's refcount reaches zero:
which of the two caller-supplied release callbacks was invoked. -/
inductive ReleaseEvt where
  | payload_release
  | control_block_release
  deriving DecidableEq, Repr

/-- The data control block `az_ulib_ustream_data_cb` from
`az_ulib_ustream_base.h`: `api` is the vtable pointer (modelled by its
numeric identity, `none` = NULL), `ptr` is the payload (for the flat
provider: the byte content), `ref_count` the shared reference count, and the
two release callbacks are modelled by whether they are non-null. -/
structure az_ulib_ustream_data_cb where
  api : Option Nat
  ptr : List Nat
  ref_count : Nat
  data_release_nonnull : Bool
  control_block_release_nonnull : Bool
  deriving DecidableEq, Repr

/-- The stream instance `az_ulib_ustream` from `az_ulib_ustream_base.h`:
a control-block pointer (`none` = NULL) plus the per-instance cursor fields
`offset_diff`, `inner_current_position`, `inner_first_valid_position`,
`length`. -/
structure az_ulib_ustream where
  control_block : Option az_ulib_ustream_data_cb
  offset_diff : Nat
  inner_current_position : Nat
  inner_first_valid_position : Nat
  length : Nat
  deriving DecidableEq, Repr

/-- The macro `AZ_ULIB_USTREAM_IS_NOT_TYPE_OF(handle, type_api)` from
`az_ulib_ustream_base.h` line 460:
`(handle == NULL) || (handle->control_block == NULL) ||
 (handle->control_block->api == NULL) || (handle->control_block->api != &type_api)`. -/
def az_ulib_ustream_is_not_type_of (handle : Option az_ulib_ustream) (type_api : Nat) : Bool :=
  match handle with
  | none => true
  | some h =>
    match h.control_block with
    | none => true
    | some cb =>
      match cb.api with
      | none => true
      | some api => api != type_api

/-- The predicate `is_of_type(instance, provider_vtable)` as the spec words
it: true iff the instance is non-null, its control block is non-null, its
vtable pointer is non-null, and that vtable pointer equals the given
provider vtable. -/
def is_of_type (handle : Option az_ulib_ustream) (type_api : Nat) : Bool :=
  handle.isSome
    && (handle.bind (fun h => h.control_block)).isSome
    && ((handle.bind (fun h => h.control_block)).bind (fun cb => cb.api)).isSome
    && (((handle.bind (fun h => h.control_block)).bind (fun cb => cb.api)) == some type_api)

/-- C9: the type predicate `is_of_type` is true iff the four conditions
(non-null instance, non-null control block, non-null vtable pointer, vtable
pointer equal to the provider's vtable) all hold, and the
`AZ_ULIB_USTREAM_IS_NOT_TYPE_OF` macro is its exact negation. -/
theorem C9_is_of_type_characterization :
    ∀ (handle : Option az_ulib_ustream) (type_api : Nat),
      (is_of_type handle type_api = true ↔
        (handle.isSome = true ∧
         (handle.bind (fun h => h.control_block)).isSome = true ∧
         ((handle.bind (fun h => h.control_block)).bind (fun cb => cb.api)).isSome = true ∧
         ((handle.bind (fun h => h.control_block)).bind (fun cb => cb.api)) = some type_api)) ∧
      az_ulib_ustream_is_not_type_of handle type_api = !(is_of_type handle type_api) := by
  intro handle type_api
  constructor
  · simp only [is_of_type, Bool.and_eq_true, beq_iff_eq, and_assoc]
  · match handle with
    | none => rfl
    | some h =>
      match hcb : h.control_block with
      | none => simp [az_ulib_ustream_is_not_type_of, is_of_type, hcb]
      | some cb =>
        match hapi : cb.api with
        | none => simp [az_ulib_ustream_is_not_type_of, is_of_type, hcb, hapi]
        | some api =>
          simp only [az_ulib_ustream_is_not_type_of, is_of_type, hcb, hapi,
            Option.bind_some, Option.isSome_some, Bool.true_and]
          by_cases hev : api = type_api
          · subst hev; simp [hcb, hapi]
          · simp only [Option.some_bind, hcb, hapi, Option.isSome_some, Bool.true_and]
            rfl

/-- The identity (address) of the flat provider's singleton vtable
`api` (`az_ulib_ustream.c` publishes one `static const az_ulib_ustream_interface`). -/
def flat_api_ptr : Nat := 1

/-- Modelled from the spec: the flat provider's concrete `set_position`
(`az_ulib_ustream.c` is not among the sources).  Per the spec: check the
provider identity with the `AZ_ULIB_USTREAM_IS_NOT_TYPE_OF` macro; let
`inner = logical_pos - offset_diff` computed in the unsigned domain with
underflow reported as `NO_SUCH_ELEMENT`; if `inner > length` or
`inner < inner_first_valid_position` return `NO_SUCH_ELEMENT` leaving the
cursor untouched; else set `inner_current_position = inner` and succeed. -/
def concrete_set_position (handle : Option az_ulib_ustream) (position : Nat) :
    az_ulib_result × Option az_ulib_ustream :=
  if az_ulib_ustream_is_not_type_of handle flat_api_ptr then
    (AZ_ULIB_ILLEGAL_ARGUMENT_ERROR, handle)
  else
    match handle with
    | some s =>
      if position < s.offset_diff then (AZ_ULIB_NO_SUCH_ELEMENT_ERROR, some s)
      else
        let inner := position - s.offset_diff
        if s.length < inner then (AZ_ULIB_NO_SUCH_ELEMENT_ERROR, some s)
        else if inner < s.inner_first_valid_position then (AZ_ULIB_NO_SUCH_ELEMENT_ERROR, some s)
        else (AZ_ULIB_SUCCESS, some { s with inner_current_position := inner })
    | none => (AZ_ULIB_ILLEGAL_ARGUMENT_ERROR, none)

/-- Modelled from the spec: the flat provider's concrete `reset`.  If
`inner_first_valid_position == length` there is nothing left to re-read and
the result is `NO_SUCH_ELEMENT`; else the cursor returns to
`inner_first_valid_position`. -/
def concrete_reset (handle : Option az_ulib_ustream) :
    az_ulib_result × Option az_ulib_ustream :=
  if az_ulib_ustream_is_not_type_of handle flat_api_ptr then
    (AZ_ULIB_ILLEGAL_ARGUMENT_ERROR, handle)
  else
    match handle with
    | some s =>
      if s.inner_first_valid_position = s.length then (AZ_ULIB_NO_SUCH_ELEMENT_ERROR, some s)
      else (AZ_ULIB_SUCCESS, some { s with inner_current_position := s.inner_first_valid_position })
    | none => (AZ_ULIB_ILLEGAL_ARGUMENT_ERROR, none)

/-- Modelled from the spec: the flat provider's concrete `read`.  The C
signature is `read(instance, buffer, buffer_length, size)`; the two pointer
arguments are modelled by whether they are non-null, and the bytes the call
copies into the local buffer are returned as a list (empty when nothing is
written).  Null buffer, null size or zero `buffer_length` give
`ILLEGAL_ARGUMENT`; at end of stream `*size` is set to 0 and the result is
`AZ_ULIB_EOF`; otherwise `min(buffer_length, length - inner_current_position)`
bytes are copied from the payload at `inner_current_position`, the cursor
advances by that count and `*size` reports it. -/
def concrete_read (handle : Option az_ulib_ustream) (buffer_nonnull : Bool)
    (buffer_length : Nat) (size_nonnull : Bool) :
    az_ulib_result × Option az_ulib_ustream × List Nat × Option Nat :=
  if az_ulib_ustream_is_not_type_of handle flat_api_ptr then
    (AZ_ULIB_ILLEGAL_ARGUMENT_ERROR, handle, [], none)
  else
    match handle with
    | some s =>
      match s.control_block with
      | some cb =>
        if buffer_nonnull = false ∨ size_nonnull = false ∨ buffer_length = 0 then
          (AZ_ULIB_ILLEGAL_ARGUMENT_ERROR, some s, [], none)
        else if s.inner_current_position = s.length then
          (AZ_ULIB_EOF, some s, [], some 0)
        else
          let cnt := min buffer_length (s.length - s.inner_current_position)
          (AZ_ULIB_SUCCESS,
           some { s with inner_current_position := s.inner_current_position + cnt },
           (cb.ptr.drop s.inner_current_position).take cnt,
           some cnt)
      | none => (AZ_ULIB_ILLEGAL_ARGUMENT_ERROR, some s, [], none)
    | none => (AZ_ULIB_ILLEGAL_ARGUMENT_ERROR, none, [], none)

/-- Modelled from the spec: the flat provider's concrete
`get_remaining_size`.  Null `size` gives `ILLEGAL_ARGUMENT`; else
`*size = length - inner_current_position`. -/
def concrete_get_remaining_size (handle : Option az_ulib_ustream) (size_nonnull : Bool) :
    az_ulib_result × Option Nat :=
  if az_ulib_ustream_is_not_type_of handle flat_api_ptr then
    (AZ_ULIB_ILLEGAL_ARGUMENT_ERROR, none)
  else
    match handle with
    | some s =>
      if size_nonnull = false then (AZ_ULIB_ILLEGAL_ARGUMENT_ERROR, none)
      else (AZ_ULIB_SUCCESS, some (s.length - s.inner_current_position))
    | none => (AZ_ULIB_ILLEGAL_ARGUMENT_ERROR, none)

/-- Modelled from the spec: the flat provider's concrete `get_position`.
Null `position` gives `ILLEGAL_ARGUMENT`; else the logical position
`inner_current_position + offset_diff` (in the unsigned domain). -/
def concrete_get_position (handle : Option az_ulib_ustream) (position_nonnull : Bool) :
    az_ulib_result × Option Nat :=
  if az_ulib_ustream_is_not_type_of handle flat_api_ptr then
    (AZ_ULIB_ILLEGAL_ARGUMENT_ERROR, none)
  else
    match handle with
    | some s =>
      if position_nonnull = false then (AZ_ULIB_ILLEGAL_ARGUMENT_ERROR, none)
      else (AZ_ULIB_SUCCESS, some ((s.inner_current_position + s.offset_diff) % size_mod))
    | none => (AZ_ULIB_ILLEGAL_ARGUMENT_ERROR, none)

/-- Modelled from the spec: the flat provider's concrete `release`.  Let
`inner = logical_pos - offset_diff + 1` (the new first valid inner
position; modelled with truncated `Nat` subtraction, which agrees with the
spec's rules on the whole claimed range).  If `inner` exceeds
`inner_current_position` the caller is releasing unread bytes:
`ILLEGAL_ARGUMENT`.  If `inner ≤ inner_first_valid_position` the position is
already released: `NO_SUCH_ELEMENT`.  Else `inner_first_valid_position`
becomes `inner`. -/
def concrete_release (handle : Option az_ulib_ustream) (position : Nat) :
    az_ulib_result × Option az_ulib_ustream :=
  if az_ulib_ustream_is_not_type_of handle flat_api_ptr then
    (AZ_ULIB_ILLEGAL_ARGUMENT_ERROR, handle)
  else
    match handle with
    | some s =>
      let inner := position + 1 - s.offset_diff
      if s.inner_current_position < inner then (AZ_ULIB_ILLEGAL_ARGUMENT_ERROR, some s)
      else if inner ≤ s.inner_first_valid_position then (AZ_ULIB_NO_SUCH_ELEMENT_ERROR, some s)
      else (AZ_ULIB_SUCCESS, some { s with inner_first_valid_position := inner })
    | none => (AZ_ULIB_ILLEGAL_ARGUMENT_ERROR, none)

/-- Modelled from the spec: the flat provider's concrete `clone`.  Null
`out_instance` gives `ILLEGAL_ARGUMENT`.  If
`offset + (length - inner_current_position)` overflows the unsigned position
domain the clone is rejected with `OUT_OF_MEMORY` and no instance is
produced and the refcount is untouched.  Otherwise the control block's
refcount is incremented and the new instance starts at
`inner_first_valid_position = inner_current_position = source current`, with
the source's length and with `offset_diff = offset - source current` taken
in the unsigned domain (wrap permitted).  The returned triple is
(result, source instance after the call, cloned instance or `none`). -/
def concrete_clone (out_nonnull : Bool) (handle : Option az_ulib_ustream) (offset : Nat) :
    az_ulib_result × Option az_ulib_ustream × Option az_ulib_ustream :=
  if az_ulib_ustream_is_not_type_of handle flat_api_ptr then
    (AZ_ULIB_ILLEGAL_ARGUMENT_ERROR, handle, none)
  else
    match handle with
    | some s =>
      match s.control_block with
      | some cb =>
        if out_nonnull = false then (AZ_ULIB_ILLEGAL_ARGUMENT_ERROR, some s, none)
        else if size_mod ≤ offset + (s.length - s.inner_current_position) then
          (AZ_ULIB_OUT_OF_MEMORY_ERROR, some s, none)
        else
          let cb2 := { cb with ref_count := cb.ref_count + 1 }
          (AZ_ULIB_SUCCESS,
           some { s with control_block := some cb2 },
           some { control_block := some cb2,
                  offset_diff := (offset + (size_mod - s.inner_current_position % size_mod)) % size_mod,
                  inner_current_position := s.inner_current_position,
                  inner_first_valid_position := s.inner_current_position,
                  length := s.length })
      | none => (AZ_ULIB_ILLEGAL_ARGUMENT_ERROR, some s, none)
    | none => (AZ_ULIB_ILLEGAL_ARGUMENT_ERROR, none, none)

/-- Modelled from the spec: the flat provider's concrete `dispose`.  The
control block's refcount is decremented; if it reaches zero,
`data_release(ptr)` is invoked if non-null and then
`control_block_release(control_block)` if non-null.  The invoked callbacks
are reported as the list of `ReleaseEvt`s, in invocation order. -/
def concrete_dispose (handle : Option az_ulib_ustream) :
    az_ulib_result × Option az_ulib_ustream × List ReleaseEvt :=
  if az_ulib_ustream_is_not_type_of handle flat_api_ptr then
    (AZ_ULIB_ILLEGAL_ARGUMENT_ERROR, handle, [])
  else
    match handle with
    | some s =>
      match s.control_block with
      | some cb =>
        let rc := cb.ref_count - 1
        if rc = 0 then
          (AZ_ULIB_SUCCESS,
           some { s with control_block := some { cb with ref_count := 0 } },
           (if cb.data_release_nonnull then [ReleaseEvt.payload_release] else [])
             ++ (if cb.control_block_release_nonnull then [ReleaseEvt.control_block_release] else []))
        else
          (AZ_ULIB_SUCCESS, some { s with control_block := some { cb with ref_count := rc } }, [])
      | none => (AZ_ULIB_ILLEGAL_ARGUMENT_ERROR, some s, [])
    | none => (AZ_ULIB_ILLEGAL_ARGUMENT_ERROR, none, [])

/-- Modelled from the spec: the flat provider factory `az_ulib_ustream_init`
(declared in `az_ulib_ustream.h`, exercised by the unit tests).  It requires
`out_instance`, `control_block_storage` and `payload_ptr` non-null and the
payload length positive, else `ILLEGAL_ARGUMENT`; it stamps the control
block with the flat vtable and refcount 1, records the two release
callbacks, and initializes the instance with `offset_diff = 0`, both inner
positions 0 and `length` equal to the payload length.  The payload pointer
and its length are modelled together as an optional byte list. -/
def az_ulib_ustream_init (instance_nonnull : Bool) (cb_storage_nonnull : Bool)
    (cb_release_nonnull : Bool) (payload : Option (List Nat)) (payload_release_nonnull : Bool) :
    az_ulib_result × Option az_ulib_ustream :=
  match payload with
  | none => (AZ_ULIB_ILLEGAL_ARGUMENT_ERROR, none)
  | some b =>
    if instance_nonnull = false ∨ cb_storage_nonnull = false ∨ b.length = 0 then
      (AZ_ULIB_ILLEGAL_ARGUMENT_ERROR, none)
    else
      (AZ_ULIB_SUCCESS,
       some { control_block := some { api := some flat_api_ptr, ptr := b, ref_count := 1,
                                      data_release_nonnull := payload_release_nonnull,
                                      control_block_release_nonnull := cb_release_nonnull },
              offset_diff := 0,
              inner_current_position := 0,
              inner_first_valid_position := 0,
              length := b.length })

/-- The vtable `az_ulib_ustream_interface` from `az_ulib_ustream_base.h`:
eight function pointers with the concrete implementations.  Signatures
mirror the C ones under the effect modelling used by the concrete flat
operations above (pointer arguments as `Option`/`Bool` non-null markers,
written bytes and out-parameters returned explicitly). -/
structure az_ulib_ustream_interface where
  set_position : Option az_ulib_ustream → Nat → az_ulib_result × Option az_ulib_ustream
  reset : Option az_ulib_ustream → az_ulib_result × Option az_ulib_ustream
  read : Option az_ulib_ustream → Bool → Nat → Bool →
    az_ulib_result × Option az_ulib_ustream × List Nat × Option Nat
  get_remaining_size : Option az_ulib_ustream → Bool → az_ulib_result × Option Nat
  get_position : Option az_ulib_ustream → Bool → az_ulib_result × Option Nat
  release : Option az_ulib_ustream → Nat → az_ulib_result × Option az_ulib_ustream
  clone : Bool → Option az_ulib_ustream → Nat →
    az_ulib_result × Option az_ulib_ustream × Option az_ulib_ustream
  dispose : Option az_ulib_ustream → az_ulib_result × Option az_ulib_ustream × List ReleaseEvt

/-- Modelled from the spec: the flat provider's singleton vtable (the
`static const az_ulib_ustream_interface api` of `az_ulib_ustream.c`),
grouping the eight concrete operations; it lives at address
`flat_api_ptr`. -/
def flat_ustream_interface : az_ulib_ustream_interface :=
  { set_position := concrete_set_position
    reset := concrete_reset
    read := concrete_read
    get_remaining_size := concrete_get_remaining_size
    get_position := concrete_get_position
    release := concrete_release
    clone := concrete_clone
    dispose := concrete_dispose }

/-- A vtable environment: which `az_ulib_ustream_interface` lives at each
vtable address.  The public wrappers dispatch through it. -/
def VTableEnv : Type := Nat → az_ulib_ustream_interface

/-- The inline wrapper `az_ulib_ustream_set_position` from
`az_ulib_ustream_base.h` line 496:
`return ustream_instance->control_block->api->set_position(ustream_instance, position)`.
Each pointer dereference of NULL is undefined behavior, modelled by the
overall outcome `none`. -/
def az_ulib_ustream_set_position (env : VTableEnv) (ustream_instance : Option az_ulib_ustream)
    (position : Nat) : Option (az_ulib_result × Option az_ulib_ustream) :=
  match ustream_instance with
  | none => none
  | some s =>
    match s.control_block with
    | none => none
    | some cb =>
      match cb.api with
      | none => none
      | some api => some ((env api).set_position (some s) position)

/-- The inline wrapper `az_ulib_ustream_reset` from `az_ulib_ustream_base.h`
line 535: `return ustream_instance->control_block->api->reset(ustream_instance)`. -/
def az_ulib_ustream_reset (env : VTableEnv) (ustream_instance : Option az_ulib_ustream) :
    Option (az_ulib_result × Option az_ulib_ustream) :=
  match ustream_instance with
  | none => none
  | some s =>
    match s.control_block with
    | none => none
    | some cb =>
      match cb.api with
      | none => none
      | some api => some ((env api).reset (some s))

/-- The inline wrapper `az_ulib_ustream_read` from `az_ulib_ustream_base.h`
line 592:
`return ustream_instance->control_block->api->read(ustream_instance, buffer, buffer_length, size)`. -/
def az_ulib_ustream_read (env : VTableEnv) (ustream_instance : Option az_ulib_ustream)
    (buffer_nonnull : Bool) (buffer_length : Nat) (size_nonnull : Bool) :
    Option (az_ulib_result × Option az_ulib_ustream × List Nat × Option Nat) :=
  match ustream_instance with
  | none => none
  | some s =>
    match s.control_block with
    | none => none
    | some cb =>
      match cb.api with
      | none => none
      | some api => some ((env api).read (some s) buffer_nonnull buffer_length size_nonnull)

/-- The inline wrapper `az_ulib_ustream_get_remaining_size` from
`az_ulib_ustream_base.h` line 628:
`return ustream_instance->control_block->api->get_remaining_size(ustream_instance, size)`. -/
def az_ulib_ustream_get_remaining_size (env : VTableEnv)
    (ustream_instance : Option az_ulib_ustream) (size_nonnull : Bool) :
    Option (az_ulib_result × Option Nat) :=
  match ustream_instance with
  | none => none
  | some s =>
    match s.control_block with
    | none => none
    | some cb =>
      match cb.api with
      | none => none
      | some api => some ((env api).get_remaining_size (some s) size_nonnull)

/-- The inline wrapper `az_ulib_ustream_get_position` from
`az_ulib_ustream_base.h` line 664:
`return ustream_instance->control_block->api->get_position(ustream_instance, position)`. -/
def az_ulib_ustream_get_position (env : VTableEnv)
    (ustream_instance : Option az_ulib_ustream) (position_nonnull : Bool) :
    Option (az_ulib_result × Option Nat) :=
  match ustream_instance with
  | none => none
  | some s =>
    match s.control_block with
    | none => none
    | some cb =>
      match cb.api with
      | none => none
      | some api => some ((env api).get_position (some s) position_nonnull)

/-- The inline wrapper `az_ulib_ustream_release` from
`az_ulib_ustream_base.h` line 713:
`return ustream_instance->control_block->api->release(ustream_instance, position)`. -/
def az_ulib_ustream_release (env : VTableEnv) (ustream_instance : Option az_ulib_ustream)
    (position : Nat) : Option (az_ulib_result × Option az_ulib_ustream) :=
  match ustream_instance with
  | none => none
  | some s =>
    match s.control_block with
    | none => none
    | some cb =>
      match cb.api with
      | none => none
      | some api => some ((env api).release (some s) position)

/-- The inline wrapper `az_ulib_ustream_clone` from `az_ulib_ustream_base.h`
line 839:
`return ustream_instance->control_block->api->clone(ustream_instance_clone, ustream_instance, offset)`
(the dispatch dereferences the second argument, the source instance). -/
def az_ulib_ustream_clone (env : VTableEnv) (clone_nonnull : Bool)
    (ustream_instance : Option az_ulib_ustream) (offset : Nat) :
    Option (az_ulib_result × Option az_ulib_ustream × Option az_ulib_ustream) :=
  match ustream_instance with
  | none => none
  | some s =>
    match s.control_block with
    | none => none
    | some cb =>
      match cb.api with
      | none => none
      | some api => some ((env api).clone clone_nonnull (some s) offset)

/-- The inline wrapper `az_ulib_ustream_dispose` from
`az_ulib_ustream_base.h` line 867:
`return ustream_instance->control_block->api->dispose(ustream_instance)`. -/
def az_ulib_ustream_dispose (env : VTableEnv) (ustream_instance : Option az_ulib_ustream) :
    Option (az_ulib_result × Option az_ulib_ustream × List ReleaseEvt) :=
  match ustream_instance with
  | none => none
  | some s =>
    match s.control_block with
    | none => none
    | some cb =>
      match cb.api with
      | none => none
      | some api => some ((env api).dispose (some s))

/-- A sample control block (flat vtable, refcount 1, both callbacks
non-null) used by witness statements. -/
def sample_cb : az_ulib_ustream_data_cb :=
  { api := some flat_api_ptr, ptr := [48, 49, 50], ref_count := 1,
    data_release_nonnull := true, control_block_release_nonnull := true }

/-- A sample fresh flat stream instance over the 3-byte payload of
`sample_cb`, used by witness statements. -/
def sample_stream : az_ulib_ustream :=
  { control_block := some sample_cb, offset_diff := 0, inner_current_position := 0,
    inner_first_valid_position := 0, length := 3 }

/-- C3: every one of the eight provider operations, called on a null
instance or on an instance whose control block's vtable pointer differs
from the provider's singleton vtable (that is, whenever
`AZ_ULIB_USTREAM_IS_NOT_TYPE_OF` holds), returns `ILLEGAL_ARGUMENT` and has
no other effect: the instance is unchanged, no bytes are written, no
out-parameter is written, no instance is produced and no release callback
runs. -/
theorem C3_invalid_instance_rejected :
    ∀ (handle : Option az_ulib_ustream) (pos off buffer_length : Nat) (b1 b2 : Bool),
      az_ulib_ustream_is_not_type_of handle flat_api_ptr = true →
      concrete_set_position handle pos = (AZ_ULIB_ILLEGAL_ARGUMENT_ERROR, handle) ∧
      concrete_reset handle = (AZ_ULIB_ILLEGAL_ARGUMENT_ERROR, handle) ∧
      concrete_read handle b1 buffer_length b2 = (AZ_ULIB_ILLEGAL_ARGUMENT_ERROR, handle, [], none) ∧
      concrete_get_remaining_size handle b1 = (AZ_ULIB_ILLEGAL_ARGUMENT_ERROR, none) ∧
      concrete_get_position handle b1 = (AZ_ULIB_ILLEGAL_ARGUMENT_ERROR, none) ∧
      concrete_release handle pos = (AZ_ULIB_ILLEGAL_ARGUMENT_ERROR, handle) ∧
      concrete_clone b1 handle off = (AZ_ULIB_ILLEGAL_ARGUMENT_ERROR, handle, none) ∧
      concrete_dispose handle = (AZ_ULIB_ILLEGAL_ARGUMENT_ERROR, handle, []) := by
  intro handle pos off buffer_length b1 b2 hbad
  refine ⟨?_, ?_, ?_, ?_, ?_, ?_, ?_, ?_⟩ <;>
    simp only [concrete_set_position, concrete_reset, concrete_read,
      concrete_get_remaining_size, concrete_get_position, concrete_release,
      concrete_clone, concrete_dispose, hbad, if_true]

/-- Witness for C3: the eight operations reject the NULL instance. -/
theorem C3_invalid_instance_rejected_witness :
    concrete_set_position none 0 = (AZ_ULIB_ILLEGAL_ARGUMENT_ERROR, none) ∧
    concrete_reset none = (AZ_ULIB_ILLEGAL_ARGUMENT_ERROR, none) ∧
    concrete_read none true 4 true = (AZ_ULIB_ILLEGAL_ARGUMENT_ERROR, none, [], none) ∧
    concrete_get_remaining_size none true = (AZ_ULIB_ILLEGAL_ARGUMENT_ERROR, none) ∧
    concrete_get_position none true = (AZ_ULIB_ILLEGAL_ARGUMENT_ERROR, none) ∧
    concrete_release none 0 = (AZ_ULIB_ILLEGAL_ARGUMENT_ERROR, none) ∧
    concrete_clone true none 0 = (AZ_ULIB_ILLEGAL_ARGUMENT_ERROR, none, none) ∧
    concrete_dispose none = (AZ_ULIB_ILLEGAL_ARGUMENT_ERROR, none, []) :=
  C3_invalid_instance_rejected none 0 0 4 true true (by decide)

/-- An instance whose control-block pointer is NULL, used to exhibit the
wrappers' null-control-block dereference. -/
def null_cb_stream : az_ulib_ustream :=
  { control_block := none, offset_diff := 0, inner_current_position := 0,
    inner_first_valid_position := 0, length := 0 }

/-- A control block whose vtable pointer is NULL, and an instance over it,
used to exhibit the wrappers' null-vtable dereference. -/
def null_api_cb : az_ulib_ustream_data_cb :=
  { api := none, ptr := [], ref_count := 1,
    data_release_nonnull := false, control_block_release_nonnull := false }

/-- An instance whose control block has a NULL vtable pointer. -/
def null_api_stream : az_ulib_ustream :=
  { control_block := some null_api_cb, offset_diff := 0, inner_current_position := 0,
    inner_first_valid_position := 0, length := 0 }

/-- C10: each public inline wrapper is exactly the invocation of the
corresponding vtable entry of the instance's control block with the same
arguments, returning its result unchanged; and the wrappers perform no
argument validation of their own: on a NULL instance, on an instance with a
NULL control-block pointer, and on an instance whose control block has a
NULL vtable pointer, the wrapper dereferences the null pointer (modelled as
the undefined outcome `none`) rather than returning `ILLEGAL_ARGUMENT`. -/
theorem C10_wrappers_are_vtable_dispatch :
    (∀ (env : VTableEnv) (s : az_ulib_ustream) (cb : az_ulib_ustream_data_cb)
        (api pos off buffer_length : Nat) (b1 b2 : Bool),
      s.control_block = some cb → cb.api = some api →
      az_ulib_ustream_set_position env (some s) pos = some ((env api).set_position (some s) pos) ∧
      az_ulib_ustream_reset env (some s) = some ((env api).reset (some s)) ∧
      az_ulib_ustream_read env (some s) b1 buffer_length b2 =
        some ((env api).read (some s) b1 buffer_length b2) ∧
      az_ulib_ustream_get_remaining_size env (some s) b1 =
        some ((env api).get_remaining_size (some s) b1) ∧
      az_ulib_ustream_get_position env (some s) b1 =
        some ((env api).get_position (some s) b1) ∧
      az_ulib_ustream_release env (some s) pos = some ((env api).release (some s) pos) ∧
      az_ulib_ustream_clone env b2 (some s) off = some ((env api).clone b2 (some s) off) ∧
      az_ulib_ustream_dispose env (some s) = some ((env api).dispose (some s))) ∧
    (∀ (env : VTableEnv) (pos off buffer_length : Nat) (b1 b2 : Bool),
      az_ulib_ustream_set_position env none pos = none ∧
      az_ulib_ustream_reset env none = none ∧
      az_ulib_ustream_read env none b1 buffer_length b2 = none ∧
      az_ulib_ustream_get_remaining_size env none b1 = none ∧
      az_ulib_ustream_get_position env none b1 = none ∧
      az_ulib_ustream_release env none pos = none ∧
      az_ulib_ustream_clone env b2 none off = none ∧
      az_ulib_ustream_dispose env none = none) ∧
    (∀ (env : VTableEnv) (s : az_ulib_ustream) (pos off buffer_length : Nat) (b1 b2 : Bool),
      s.control_block = none →
      az_ulib_ustream_set_position env (some s) pos = none ∧
      az_ulib_ustream_reset env (some s) = none ∧
      az_ulib_ustream_read env (some s) b1 buffer_length b2 = none ∧
      az_ulib_ustream_get_remaining_size env (some s) b1 = none ∧
      az_ulib_ustream_get_position env (some s) b1 = none ∧
      az_ulib_ustream_release env (some s) pos = none ∧
      az_ulib_ustream_clone env b2 (some s) off = none ∧
      az_ulib_ustream_dispose env (some s) = none) ∧
    (∀ (env : VTableEnv) (s : az_ulib_ustream) (cb : az_ulib_ustream_data_cb)
        (pos off buffer_length : Nat) (b1 b2 : Bool),
      s.control_block = some cb → cb.api = none →
      az_ulib_ustream_set_position env (some s) pos = none ∧
      az_ulib_ustream_reset env (some s) = none ∧
      az_ulib_ustream_read env (some s) b1 buffer_length b2 = none ∧
      az_ulib_ustream_get_remaining_size env (some s) b1 = none ∧
      az_ulib_ustream_get_position env (some s) b1 = none ∧
      az_ulib_ustream_release env (some s) pos = none ∧
      az_ulib_ustream_clone env b2 (some s) off = none ∧
      az_ulib_ustream_dispose env (some s) = none) := by
  refine ⟨?_, ?_, ?_, ?_⟩
  · intro env s cb api pos off buffer_length b1 b2 hcb hapi
    refine ⟨?_, ?_, ?_, ?_, ?_, ?_, ?_, ?_⟩ <;>
      simp only [az_ulib_ustream_set_position, az_ulib_ustream_reset, az_ulib_ustream_read,
        az_ulib_ustream_get_remaining_size, az_ulib_ustream_get_position, az_ulib_ustream_release,
        az_ulib_ustream_clone, az_ulib_ustream_dispose, hcb, hapi]
  · intro env pos off buffer_length b1 b2
    exact ⟨rfl, rfl, rfl, rfl, rfl, rfl, rfl, rfl⟩
  · intro env s pos off buffer_length b1 b2 hcb
    refine ⟨?_, ?_, ?_, ?_, ?_, ?_, ?_, ?_⟩ <;>
      simp only [az_ulib_ustream_set_position, az_ulib_ustream_reset, az_ulib_ustream_read,
        az_ulib_ustream_get_remaining_size, az_ulib_ustream_get_position, az_ulib_ustream_release,
        az_ulib_ustream_clone, az_ulib_ustream_dispose, hcb]
  · intro env s cb pos off buffer_length b1 b2 hcb hapi
    refine ⟨?_, ?_, ?_, ?_, ?_, ?_, ?_, ?_⟩ <;>
      simp only [az_ulib_ustream_set_position, az_ulib_ustream_reset, az_ulib_ustream_read,
        az_ulib_ustream_get_remaining_size, az_ulib_ustream_get_position, az_ulib_ustream_release,
        az_ulib_ustream_clone, az_ulib_ustream_dispose, hcb, hapi]

/-- Witness for C10: dispatch of `read` on a concrete valid instance in an
environment placing the flat vtable at `flat_api_ptr`, and the crash
outcome on a concrete instance with a NULL control block and on one with a
NULL vtable pointer. -/
theorem C10_wrappers_are_vtable_dispatch_witness :
    az_ulib_ustream_read (fun _ => flat_ustream_interface) (some sample_stream) true 4 true =
      some (flat_ustream_interface.read (some sample_stream) true 4 true) ∧
    az_ulib_ustream_read (fun _ => flat_ustream_interface) (some null_cb_stream) true 4 true =
      none ∧
    az_ulib_ustream_read (fun _ => flat_ustream_interface) (some null_api_stream) true 4 true =
      none :=
  ⟨(C10_wrappers_are_vtable_dispatch.1 (fun _ => flat_ustream_interface) sample_stream sample_cb
      flat_api_ptr 0 0 4 true true rfl rfl).2.2.1,
   (C10_wrappers_are_vtable_dispatch.2.2.1 (fun _ => flat_ustream_interface) null_cb_stream
      0 0 4 true true rfl).2.2.1,
   (C10_wrappers_are_vtable_dispatch.2.2.2 (fun _ => flat_ustream_interface) null_api_stream
      null_api_cb 0 0 4 true true rfl rfl).2.2.1⟩

/-- Helper: a read on a well-typed flat instance whose cursor sits at the
length returns `EOF`, reports size 0 and changes nothing. -/
theorem read_at_end_eof (s : az_ulib_ustream) (cb : az_ulib_ustream_data_cb)
    (buffer_length : Nat) (hcb : s.control_block = some cb)
    (hapi : cb.api = some flat_api_ptr) (hend : s.inner_current_position = s.length)
    (hbuf : 0 < buffer_length) :
    concrete_read (some s) true buffer_length true = (AZ_ULIB_EOF, some s, [], some 0) := by
  have hnt : az_ulib_ustream_is_not_type_of (some s) flat_api_ptr = false := by
    simp [az_ulib_ustream_is_not_type_of, hcb, hapi]
  simp only [concrete_read, hnt, Bool.false_eq_true, if_false, hcb, hend, if_pos rfl]
  have : ¬ (true = false ∨ true = false ∨ buffer_length = 0) := by
    simp; omega
  rw [if_neg this, if_pos trivial]

/-- C5: a read on a valid flat instance whose inner current position equals
its length, with non-null buffer, non-null out-size and positive buffer
length, returns `AZ_ULIB_EOF`, writes 0 to `*out_size`, writes nothing to
the local buffer and leaves the instance unchanged. -/
theorem C5_read_at_end_gives_eof :
    ∀ (s : az_ulib_ustream) (cb : az_ulib_ustream_data_cb) (buffer_length : Nat),
      s.control_block = some cb → cb.api = some flat_api_ptr →
      s.inner_current_position = s.length → 0 < buffer_length →
      concrete_read (some s) true buffer_length true = (AZ_ULIB_EOF, some s, [], some 0) :=
  fun s cb buffer_length hcb hapi hend hbuf =>
    read_at_end_eof s cb buffer_length hcb hapi hend hbuf

/-- Witness for C5: a concrete fully-consumed 3-byte flat stream. -/
theorem C5_read_at_end_gives_eof_witness :
    concrete_read (some { sample_stream with inner_current_position := 3 }) true 7 true =
      (AZ_ULIB_EOF, some { sample_stream with inner_current_position := 3 }, [], some 0) :=
  C5_read_at_end_gives_eof { sample_stream with inner_current_position := 3 } sample_cb 7
    rfl rfl rfl (by decide)

/-- C6: when `dispose` decrements the control block's refcount to zero (the
refcount was 1) and both release callbacks are non-null, exactly the two
release callbacks run, in the order payload release first and control-block
release second; when the refcount is still positive after the decrement,
no callback runs. -/
theorem C6_dispose_release_order :
    ∀ (s : az_ulib_ustream) (cb : az_ulib_ustream_data_cb),
      s.control_block = some cb → cb.api = some flat_api_ptr →
      cb.data_release_nonnull = true → cb.control_block_release_nonnull = true →
      ((cb.ref_count = 1 →
        concrete_dispose (some s) =
          (AZ_ULIB_SUCCESS, some { s with control_block := some { cb with ref_count := 0 } },
           [ReleaseEvt.payload_release, ReleaseEvt.control_block_release])) ∧
       (1 < cb.ref_count →
        concrete_dispose (some s) =
          (AZ_ULIB_SUCCESS,
           some { s with control_block := some { cb with ref_count := cb.ref_count - 1 } },
           []))) := by
  intro s cb hcb hapi hdr hcr
  have hnt : az_ulib_ustream_is_not_type_of (some s) flat_api_ptr = false := by
    simp [az_ulib_ustream_is_not_type_of, hcb, hapi]
  constructor
  · intro hrc
    simp [concrete_dispose, hnt, hcb, hrc, hdr, hcr]
  · intro hrc
    have hne : ¬ (cb.ref_count - 1 = 0) := by omega
    simp [concrete_dispose, hnt, hcb, hne]

/-- Witness for C6: disposing `sample_stream` (refcount 1) fires the payload
release then the control-block release. -/
theorem C6_dispose_release_order_witness :
    concrete_dispose (some sample_stream) =
      (AZ_ULIB_SUCCESS, some { sample_stream with control_block := some { sample_cb with ref_count := 0 } },
       [ReleaseEvt.payload_release, ReleaseEvt.control_block_release]) :=
  (C6_dispose_release_order sample_stream sample_cb rfl rfl rfl rfl).1 rfl

/-- C7: on a valid flat instance, a clone whose `offset + (length -
inner_current_position)` overflows the unsigned position domain fails with
a non-`SUCCESS` result (`OUT_OF_MEMORY` when the destination is non-null),
produces no new instance and leaves the source — its control block refcount
included — unchanged. -/
theorem C7_clone_overflow_fails :
    ∀ (s : az_ulib_ustream) (cb : az_ulib_ustream_data_cb) (offset : Nat) (out_nonnull : Bool),
      s.control_block = some cb → cb.api = some flat_api_ptr →
      size_mod ≤ offset + (s.length - s.inner_current_position) →
      (concrete_clone out_nonnull (some s) offset).1 ≠ AZ_ULIB_SUCCESS ∧
      (concrete_clone out_nonnull (some s) offset).2.2 = none ∧
      (concrete_clone out_nonnull (some s) offset).2.1 = some s ∧
      (out_nonnull = true →
        (concrete_clone out_nonnull (some s) offset).1 = AZ_ULIB_OUT_OF_MEMORY_ERROR) := by
  intro s cb offset out_nonnull hcb hapi hover
  have hnt : az_ulib_ustream_is_not_type_of (some s) flat_api_ptr = false := by
    simp [az_ulib_ustream_is_not_type_of, hcb, hapi]
  cases out_nonnull with
  | false => simp [concrete_clone, hnt, hcb]
  | true => simp [concrete_clone, hnt, hcb, hover]

/-- Witness for C7: cloning the fresh 3-byte sample stream at offset
`2 ^ 64 - 3` overflows the 64-bit position domain. -/
theorem C7_clone_overflow_fails_witness :
    (concrete_clone true (some sample_stream) (2 ^ 64 - 3)).1 ≠ AZ_ULIB_SUCCESS ∧
    (concrete_clone true (some sample_stream) (2 ^ 64 - 3)).2.2 = none ∧
    (concrete_clone true (some sample_stream) (2 ^ 64 - 3)).2.1 = some sample_stream ∧
    (true = true → (concrete_clone true (some sample_stream) (2 ^ 64 - 3)).1 = AZ_ULIB_OUT_OF_MEMORY_ERROR) :=
  C7_clone_overflow_fails sample_stream sample_cb (2 ^ 64 - 3) true rfl rfl
    (by norm_num [size_mod, sample_stream])

/-- On a well-typed flat instance, `set_position` reduces to a pure range
check on the inner position (truncated `Nat` subtraction, matching the
unsigned-domain computation with underflow reported as out of range). -/
theorem concrete_set_position_eq (s : az_ulib_ustream) (cb : az_ulib_ustream_data_cb) (p : Nat)
    (hcb : s.control_block = some cb) (hapi : cb.api = some flat_api_ptr) :
    concrete_set_position (some s) p =
      if s.offset_diff ≤ p ∧ p - s.offset_diff ≤ s.length ∧
         s.inner_first_valid_position ≤ p - s.offset_diff then
        (AZ_ULIB_SUCCESS, some { s with inner_current_position := p - s.offset_diff })
      else (AZ_ULIB_NO_SUCH_ELEMENT_ERROR, some s) := by
  have hnt : az_ulib_ustream_is_not_type_of (some s) flat_api_ptr = false := by
    simp [az_ulib_ustream_is_not_type_of, hcb, hapi]
  simp only [concrete_set_position, hnt, Bool.false_eq_true, if_false]
  split_ifs with h1 h2 h3 h4 <;> first | rfl | omega

/-- C4: for a valid flat instance `s` and any logical position `p`,
`set_position` succeeds with the new inner current position equal to
`p - offset_diff` exactly when `inner_first_valid_position ≤ p -
offset_diff ≤ length` (the arithmetic read over the integers, so logical
positions below `offset_diff` are out of range); in every other case the
result is `NO_SUCH_ELEMENT` and the cursor is unchanged.  In particular a
seek to the logical end of stream `offset_diff + length` succeeds and the
next read returns `EOF`, while a seek to `offset_diff + length + 1` fails
with `NO_SUCH_ELEMENT`. -/
theorem C4_set_position_range :
    ∀ (s : az_ulib_ustream) (cb : az_ulib_ustream_data_cb) (p : Nat),
      s.control_block = some cb → cb.api = some flat_api_ptr →
      s.inner_first_valid_position ≤ s.inner_current_position →
      s.inner_current_position ≤ s.length →
      (((concrete_set_position (some s) p).1 = AZ_ULIB_SUCCESS ∧
          (concrete_set_position (some s) p).2 =
            some { s with inner_current_position := p - s.offset_diff }) ↔
        ((s.inner_first_valid_position : ℤ) ≤ (p : ℤ) - (s.offset_diff : ℤ) ∧
         (p : ℤ) - (s.offset_diff : ℤ) ≤ (s.length : ℤ))) ∧
      (¬ ((s.inner_first_valid_position : ℤ) ≤ (p : ℤ) - (s.offset_diff : ℤ) ∧
          (p : ℤ) - (s.offset_diff : ℤ) ≤ (s.length : ℤ)) →
        (concrete_set_position (some s) p).1 = AZ_ULIB_NO_SUCH_ELEMENT_ERROR ∧
        (concrete_set_position (some s) p).2 = some s) ∧
      ((concrete_set_position (some s) (s.offset_diff + s.length)).1 = AZ_ULIB_SUCCESS ∧
       (concrete_read (concrete_set_position (some s) (s.offset_diff + s.length)).2
          true 1 true).1 = AZ_ULIB_EOF) ∧
      (concrete_set_position (some s) (s.offset_diff + s.length + 1)).1 =
        AZ_ULIB_NO_SUCH_ELEMENT_ERROR := by
  intro s cb p hcb hapi hfc hcl
  have key := concrete_set_position_eq s cb p hcb hapi
  refine ⟨?_, ?_, ⟨?_, ?_⟩, ?_⟩
  · rw [key]
    split_ifs with hin
    · constructor
      · intro _; omega
      · intro _; exact ⟨rfl, rfl⟩
    · constructor
      · intro h
        exact absurd h.1 (by simp)
      · intro h
        exact absurd (by omega : s.offset_diff ≤ p ∧ p - s.offset_diff ≤ s.length ∧
          s.inner_first_valid_position ≤ p - s.offset_diff) hin
  · intro hout
    rw [key]
    split_ifs with hin
    · exact absurd ⟨by omega, by omega⟩ hout
    · exact ⟨rfl, rfl⟩
  · rw [concrete_set_position_eq s cb _ hcb hapi, if_pos (by omega)]
  · rw [concrete_set_position_eq s cb _ hcb hapi, if_pos (by omega)]
    rw [read_at_end_eof { s with inner_current_position := s.offset_diff + s.length - s.offset_diff }
      cb 1 hcb hapi (by simp) (by omega)]
  · rw [concrete_set_position_eq s cb _ hcb hapi, if_neg (by omega)]

/-- Witness for C4: on the fresh sample stream, seeking to the logical end
of stream succeeds and the next read returns `EOF`, while seeking one past
it yields `NO_SUCH_ELEMENT`. -/
theorem C4_set_position_range_witness :
    ((concrete_set_position (some sample_stream)
        (sample_stream.offset_diff + sample_stream.length)).1 = AZ_ULIB_SUCCESS ∧
     (concrete_read (concrete_set_position (some sample_stream)
        (sample_stream.offset_diff + sample_stream.length)).2 true 1 true).1 = AZ_ULIB_EOF) ∧
    (concrete_set_position (some sample_stream)
        (sample_stream.offset_diff + sample_stream.length + 1)).1 =
      AZ_ULIB_NO_SUCH_ELEMENT_ERROR :=
  (C4_set_position_range sample_stream sample_cb 2 rfl rfl (by decide) (by decide)).2.2

/-- A flat instance over a 10-byte payload that has been read up to inner
position 4 and released up to inner position 1 (so
`inner_first_valid_position = 2`): the state reached by reading 4 bytes of
`"0123456789"` and then releasing logical position 1. -/
def released_cb : az_ulib_ustream_data_cb :=
  { api := some flat_api_ptr, ptr := [48, 49, 50, 51, 52, 53, 54, 55, 56, 57], ref_count := 1,
    data_release_nonnull := true, control_block_release_nonnull := true }

/-- The partially-read, partially-released instance used to refute C8 as
stated. -/
def released_stream : az_ulib_ustream :=
  { control_block := some released_cb, offset_diff := 0, inner_current_position := 4,
    inner_first_valid_position := 2, length := 10 }

/-- Counterexample to C8 as stated: the logical position `p = 1` of
`released_stream` satisfies the claim's range condition
`inner_first_valid_position ≤ p - offset_diff + 1 ≤ inner_current_position`
(here `2 ≤ 2 ≤ 4`) on a valid instance, yet the FIRST `release(s, 1)` call
already returns `NO_SUCH_ELEMENT` (the spec's own rule: `inner ≤
inner_first_valid_position` means already released), not the `SUCCESS` the
claim requires. -/
theorem C8_release_twice_counterexample :
    released_stream.inner_first_valid_position ≤ 1 - released_stream.offset_diff + 1 ∧
    1 - released_stream.offset_diff + 1 ≤ released_stream.inner_current_position ∧
    released_stream.inner_first_valid_position ≤ released_stream.inner_current_position ∧
    released_stream.inner_current_position ≤ released_stream.length ∧
    (concrete_release (some released_stream) 1).1 = AZ_ULIB_NO_SUCH_ELEMENT_ERROR ∧
    ¬ (concrete_release (some released_stream) 1).1 = AZ_ULIB_SUCCESS := by
  decide

/-- C8 (amended): for every valid flat instance `s` and logical position `p`
strictly inside the pending segment — `inner_first_valid_position <
p - offset_diff + 1 ≤ inner_current_position` (the claim's lower bound
tightened from `≤` to `<`, since at equality the position is already
released and the first call returns `NO_SUCH_ELEMENT`) — releasing at `p`
twice in succession returns `SUCCESS` then `NO_SUCH_ELEMENT`, the second
call leaving `inner_first_valid_position` (set to `p - offset_diff + 1` by
the first call) unchanged. -/
theorem C8_release_twice_amended :
    ∀ (s : az_ulib_ustream) (cb : az_ulib_ustream_data_cb) (p : Nat),
      s.control_block = some cb → cb.api = some flat_api_ptr →
      s.inner_first_valid_position < p + 1 - s.offset_diff →
      p + 1 - s.offset_diff ≤ s.inner_current_position →
      concrete_release (some s) p =
        (AZ_ULIB_SUCCESS, some { s with inner_first_valid_position := p + 1 - s.offset_diff }) ∧
      concrete_release (some { s with inner_first_valid_position := p + 1 - s.offset_diff }) p =
        (AZ_ULIB_NO_SUCH_ELEMENT_ERROR,
         some { s with inner_first_valid_position := p + 1 - s.offset_diff }) := by
  intro s cb p hcb hapi hlo hhi
  have hnt : az_ulib_ustream_is_not_type_of (some s) flat_api_ptr = false := by
    simp [az_ulib_ustream_is_not_type_of, hcb, hapi]
  have hnt2 : az_ulib_ustream_is_not_type_of
      (some { s with inner_first_valid_position := p + 1 - s.offset_diff }) flat_api_ptr = false := by
    simp [az_ulib_ustream_is_not_type_of, hcb, hapi]
  constructor
  · simp only [concrete_release, hnt, Bool.false_eq_true, if_false]
    rw [if_neg (by omega), if_neg (by omega)]
  · simp only [concrete_release, hnt2, Bool.false_eq_true, if_false]
    rw [if_neg (by omega), if_pos (by omega)]

/-- Witness for C8 (amended): on `released_stream`, releasing logical
position 2 twice returns `SUCCESS` then `NO_SUCH_ELEMENT`. -/
theorem C8_release_twice_amended_witness :
    concrete_release (some released_stream) 2 =
      (AZ_ULIB_SUCCESS, some { released_stream with inner_first_valid_position := 3 }) ∧
    concrete_release (some { released_stream with inner_first_valid_position := 3 }) 2 =
      (AZ_ULIB_NO_SUCH_ELEMENT_ERROR,
       some { released_stream with inner_first_valid_position := 3 }) :=
  C8_release_twice_amended released_stream released_cb 2 rfl rfl (by decide) (by decide)

/-- The consumer loop of the compliance tests: repeatedly call the flat
provider's `read` into a local buffer of `buffer_length` bytes until the
result is no longer `SUCCESS`, concatenating the chunks written to the
local buffer.  `fuel` bounds the number of iterations. -/
def read_until_end : Option az_ulib_ustream → Nat → Nat → List Nat
  | _, _, 0 => []
  | handle, buffer_length, fuel + 1 =>
    match concrete_read handle true buffer_length true with
    | (AZ_ULIB_SUCCESS, handle2, chunk, _) => chunk ++ read_until_end handle2 buffer_length fuel
    | _ => []

/-- Helper: on a well-typed flat instance the read loop returns exactly the
payload bytes from the cursor on, given enough fuel. -/
theorem read_until_end_eq :
    ∀ (fuel : Nat) (s : az_ulib_ustream) (cb : az_ulib_ustream_data_cb) (buffer_length : Nat),
      s.control_block = some cb → cb.api = some flat_api_ptr →
      s.length = cb.ptr.length → s.inner_current_position ≤ s.length →
      1 ≤ buffer_length → s.length - s.inner_current_position ≤ fuel →
      read_until_end (some s) buffer_length fuel = cb.ptr.drop s.inner_current_position := by
  intro fuel
  induction fuel with
  | zero =>
    intro s cb buffer_length hcb hapi hlen hcur hbuf hfuel
    have : s.inner_current_position = s.length := by omega
    rw [read_until_end, List.drop_eq_nil_iff.mpr (by omega)]
  | succ n ih =>
    intro s cb buffer_length hcb hapi hlen hcur hbuf hfuel
    have hnt : az_ulib_ustream_is_not_type_of (some s) flat_api_ptr = false := by
      simp [az_ulib_ustream_is_not_type_of, hcb, hapi]
    by_cases hend : s.inner_current_position = s.length
    · rw [read_until_end]
      rw [read_at_end_eof s cb buffer_length hcb hapi hend hbuf]
      rw [List.drop_eq_nil_iff.mpr (by omega)]
    · have hminle : min buffer_length (s.length - s.inner_current_position) ≤
          s.length - s.inner_current_position := min_le_right _ _
      have hminpos : 1 ≤ min buffer_length (s.length - s.inner_current_position) :=
        le_min hbuf (by omega)
      have hread : concrete_read (some s) true buffer_length true =
          (AZ_ULIB_SUCCESS,
           some { s with inner_current_position :=
                    s.inner_current_position + min buffer_length (s.length - s.inner_current_position) },
           (cb.ptr.drop s.inner_current_position).take
             (min buffer_length (s.length - s.inner_current_position)),
           some (min buffer_length (s.length - s.inner_current_position))) := by
        simp only [concrete_read, hnt, Bool.false_eq_true, if_false, hcb]
        rw [if_neg (by simp; omega), if_neg hend]
      have hstep : read_until_end (some s) buffer_length (n + 1) =
          (cb.ptr.drop s.inner_current_position).take
              (min buffer_length (s.length - s.inner_current_position)) ++
            read_until_end
              (some { s with inner_current_position :=
                        s.inner_current_position +
                          min buffer_length (s.length - s.inner_current_position) })
              buffer_length n := by
        rw [read_until_end, hread]
      obtain ⟨m, hm⟩ : ∃ m, min buffer_length (s.length - s.inner_current_position) = m :=
        ⟨_, rfl⟩
      rw [hm] at hminle hminpos hstep
      rw [hstep]
      rw [ih { s with inner_current_position := s.inner_current_position + m } cb buffer_length
        hcb hapi hlen (by show s.inner_current_position + m ≤ s.length; omega) hbuf
        (by show s.length - (s.inner_current_position + m) ≤ n; omega)]
      show (cb.ptr.drop s.inner_current_position).take m ++
          cb.ptr.drop (s.inner_current_position + m) = cb.ptr.drop s.inner_current_position
      rw [← List.drop_drop, List.take_append_drop]

/-- C1: a flat stream initialized over a non-empty byte content `B`, read
repeatedly into a local buffer of any size ≥ 1 until the provider stops
returning `SUCCESS` (the call after the last bytes returns `EOF`),
produces in order exactly the bytes of `B`. -/
theorem C1_flat_read_roundtrip :
    ∀ (B : List Nat) (buffer_length fuel : Nat),
      0 < B.length → 1 ≤ buffer_length → B.length ≤ fuel →
      read_until_end (az_ulib_ustream_init true true true (some B) true).2 buffer_length fuel = B := by
  intro B buffer_length fuel hB hbuf hfuel
  have hinit : (az_ulib_ustream_init true true true (some B) true).2 =
      some { control_block := some { api := some flat_api_ptr, ptr := B, ref_count := 1,
                                     data_release_nonnull := true,
                                     control_block_release_nonnull := true },
             offset_diff := 0, inner_current_position := 0,
             inner_first_valid_position := 0, length := B.length } := by
    simp only [az_ulib_ustream_init]
    rw [if_neg (by simp only [Bool.true_eq_false, false_or]; omega)]
  rw [hinit]
  rw [read_until_end_eq fuel _ _ buffer_length rfl rfl rfl
    (by show (0 : Nat) ≤ B.length; omega) hbuf (by show B.length - 0 ≤ fuel; omega)]
  show B.drop 0 = B
  exact List.drop_zero B

/-- Witness for C1: the 10-byte content `"0123456789"` read through a
4-byte local buffer. -/
theorem C1_flat_read_roundtrip_witness :
    read_until_end
      (az_ulib_ustream_init true true true
        (some [48, 49, 50, 51, 52, 53, 54, 55, 56, 57]) true).2 4 10 =
      [48, 49, 50, 51, 52, 53, 54, 55, 56, 57] :=
  C1_flat_read_roundtrip [48, 49, 50, 51, 52, 53, 54, 55, 56, 57] 4 10
    (by decide) (by decide) (by decide)

/-- The per-instance cursor fields of an `az_ulib_ustream`, used by the
composite (multi) stream model where a stream may refer to child streams
rather than to a flat byte payload. -/
structure ustream_cursor where
  offset_diff : Nat
  inner_current_position : Nat
  inner_first_valid_position : Nat
  length : Nat
  deriving DecidableEq, Repr

/-- Modelled from the spec: the state of a stream built from the flat
provider and the multi (concat) provider.  A `flat` node is a flat-provider
instance over its byte payload; a `multi` node is a multi-provider instance
over the two child instances held in its `az_ulib_ustream_multi_data_cb`
(`ustream_one` and `ustream_two`). -/
inductive UStreamTree where
  | flat : ustream_cursor → List Nat → UStreamTree
  | multi : ustream_cursor → UStreamTree → UStreamTree → UStreamTree
  deriving DecidableEq, Repr

/-- The cursor of the root instance of a stream tree. -/
def tree_cursor : UStreamTree → ustream_cursor
  | .flat c _ => c
  | .multi c _ _ => c

/-- Modelled from the spec: `read` for the flat and the multi providers
over the tree state (`az_ulib_ustream_aux.c` is not among the sources).
The flat case copies `min(buffer_length, length - inner_current_position)`
payload bytes and advances the cursor.  The multi case (under the multi's
lock, not observable in this single-threaded embedding) delegates to
`ustream_one`; if `ustream_one` is at EOF it delegates to `ustream_two`;
a single call never spans the child boundary; on a successful delegated
read the outer cursor advances by the source bytes the child consumed
(equal to the chunk length for these providers, which do no data
conversion). -/
def tree_read : UStreamTree → Nat → az_ulib_result × UStreamTree × List Nat
  | .flat c p, buffer_length =>
    if buffer_length = 0 then (AZ_ULIB_ILLEGAL_ARGUMENT_ERROR, .flat c p, [])
    else if c.inner_current_position = c.length then (AZ_ULIB_EOF, .flat c p, [])
    else
      let cnt := min buffer_length (c.length - c.inner_current_position)
      (AZ_ULIB_SUCCESS,
       .flat { c with inner_current_position := c.inner_current_position + cnt } p,
       (p.drop c.inner_current_position).take cnt)
  | .multi c one two, buffer_length =>
    if buffer_length = 0 then (AZ_ULIB_ILLEGAL_ARGUMENT_ERROR, .multi c one two, [])
    else if c.inner_current_position = c.length then (AZ_ULIB_EOF, .multi c one two, [])
    else
      match tree_read one buffer_length with
      | (AZ_ULIB_SUCCESS, one2, chunk) =>
        (AZ_ULIB_SUCCESS,
         .multi { c with inner_current_position := c.inner_current_position + chunk.length }
           one2 two,
         chunk)
      | (AZ_ULIB_EOF, one2, _) =>
        match tree_read two buffer_length with
        | (AZ_ULIB_SUCCESS, two2, chunk) =>
          (AZ_ULIB_SUCCESS,
           .multi { c with inner_current_position := c.inner_current_position + chunk.length }
             one2 two2,
           chunk)
        | (r, two2, chunk) => (r, .multi c one2 two2, chunk)
      | (r, one2, chunk) => (r, .multi c one2 two, chunk)

/-- The bytes a stream tree still has to deliver (its future segment):
the payload from the cursor on for a flat node, and the two children's
future segments in order for a multi node. -/
def tree_pending_bytes : UStreamTree → List Nat
  | .flat c p => (p.drop c.inner_current_position).take (c.length - c.inner_current_position)
  | .multi _ one two => tree_pending_bytes one ++ tree_pending_bytes two

/-- Well-formedness of a stream tree state: a flat node's cursor stays
within its payload (whose length the instance records); a multi node's
children are well-formed and the outer cursor has at least the children's
undelivered bytes left before its length. -/
def tree_wf : UStreamTree → Prop
  | .flat c p => c.inner_current_position ≤ c.length ∧ c.length = p.length
  | .multi c one two => tree_wf one ∧ tree_wf two ∧
      c.inner_current_position ≤ c.length ∧
      c.inner_current_position + (tree_pending_bytes one).length +
        (tree_pending_bytes two).length ≤ c.length

/-- Modelled from the spec: the cursor produced by `clone` at a given
offset — both inner positions collapse to the source's current position,
the length is kept and `offset_diff` is chosen in the unsigned domain so
that the source's current position gets logical position `offset`. -/
def clone_cursor (c : ustream_cursor) (offset : Nat) : ustream_cursor :=
  { offset_diff := (offset + (size_mod - c.inner_current_position % size_mod)) % size_mod,
    inner_current_position := c.inner_current_position,
    inner_first_valid_position := c.inner_current_position,
    length := c.length }

/-- Modelled from the spec: `clone` on the tree state (the clone shares the
control block — children included — and gets its own cursor). -/
def tree_clone (s : UStreamTree) (offset : Nat) : UStreamTree :=
  match s with
  | .flat c p => .flat (clone_cursor c offset) p
  | .multi c one two => .multi (clone_cursor c offset) one two

/-- Modelled from the spec: `az_ulib_ustream_concat(first, second)`.  When
`first` is already a multi its instance is absorbed (struct-copied) as
`ustream_one`; otherwise `first` is cloned at offset 0 into `ustream_one`.
`second` is always cloned at offset `first.length` into `ustream_two`.  The
returned outer instance has `length = first.length + second.length` and its
cursor at 0. -/
def az_ulib_ustream_concat (first second : UStreamTree) : UStreamTree :=
  let one := match first with
    | .multi c o t => .multi c o t
    | .flat _ _ => tree_clone first 0
  let two := tree_clone second (tree_cursor first).length
  .multi { offset_diff := 0, inner_current_position := 0, inner_first_valid_position := 0,
           length := (tree_cursor first).length + (tree_cursor second).length } one two

/-- Modelled from the spec: `get_remaining_size` — the length minus the
current inner position of the root instance. -/
def tree_get_remaining_size (s : UStreamTree) : Nat :=
  (tree_cursor s).length - (tree_cursor s).inner_current_position

/-- The consumer loop: repeatedly `read` with a `buffer_length`-byte local
buffer until the result is no longer `SUCCESS`, concatenating the delivered
chunks.  `fuel` bounds the number of iterations. -/
def tree_read_all : UStreamTree → Nat → Nat → List Nat
  | _, _, 0 => []
  | s, buffer_length, fuel + 1 =>
    match tree_read s buffer_length with
    | (AZ_ULIB_SUCCESS, s2, chunk) => chunk ++ tree_read_all s2 buffer_length fuel
    | _ => []

/-- Helper: the flat node's future segment has exactly
`length - inner_current_position` bytes. -/
theorem tree_pending_length_flat (c : ustream_cursor) (p : List Nat)
    (hwf : tree_wf (.flat c p)) :
    (tree_pending_bytes (.flat c p)).length = c.length - c.inner_current_position := by
  obtain ⟨hcl, hlen⟩ := hwf
  simp only [tree_pending_bytes, List.length_take, List.length_drop]
  omega

/-- Helper: a well-formed tree has at most
`length - inner_current_position` undelivered bytes. -/
theorem tree_pending_length_le :
    ∀ (s : UStreamTree), tree_wf s →
      (tree_pending_bytes s).length ≤
        (tree_cursor s).length - (tree_cursor s).inner_current_position := by
  intro s
  induction s with
  | flat c p =>
    intro hwf
    rw [tree_pending_length_flat c p hwf]
    exact Nat.le_refl _
  | multi c one two ih1 ih2 =>
    intro hwf
    obtain ⟨hw1, hw2, hcl, hsum⟩ := hwf
    simp only [tree_pending_bytes, tree_cursor, List.length_append]
    omega

/-- Helper: a well-formed tree with no undelivered bytes answers `EOF` to a
read with a positive buffer, without changing state or writing anything. -/
theorem tree_read_eof :
    ∀ (s : UStreamTree) (n : Nat), tree_wf s → 1 ≤ n → tree_pending_bytes s = [] →
      tree_read s n = (AZ_ULIB_EOF, s, []) := by
  intro s
  induction s with
  | flat c p =>
    intro n hwf hn hemp
    have hlen0 : (tree_pending_bytes (.flat c p)).length = 0 := by rw [hemp]; rfl
    rw [tree_pending_length_flat c p hwf] at hlen0
    obtain ⟨hcl, hlenp⟩ := hwf
    have hend : c.inner_current_position = c.length := by omega
    rw [tree_read, if_neg (by omega), if_pos hend]
  | multi c one two ih1 ih2 =>
    intro n hwf hn hemp
    obtain ⟨hw1, hw2, hcl, hsum⟩ := hwf
    have hemp2 : tree_pending_bytes one = [] ∧ tree_pending_bytes two = [] := by
      simpa [tree_pending_bytes] using hemp
    by_cases hend : c.inner_current_position = c.length
    · rw [tree_read, if_neg (by omega), if_pos hend]
    · rw [tree_read, if_neg (by omega), if_neg hend,
        ih1 n hw1 hn hemp2.1, ih2 n hw2 hn hemp2.2]

/-- Helper: a read with a positive buffer on a well-formed tree that still
has undelivered bytes succeeds, delivers a non-empty prefix of the pending
bytes, and advances the root cursor by exactly the delivered count, keeping
well-formedness and the remaining pending bytes. -/
theorem tree_read_step :
    ∀ (s : UStreamTree) (n : Nat), tree_wf s → 1 ≤ n → tree_pending_bytes s ≠ [] →
      ∃ (k : Nat) (s2 : UStreamTree),
        1 ≤ k ∧ k ≤ (tree_pending_bytes s).length ∧
        tree_read s n = (AZ_ULIB_SUCCESS, s2, (tree_pending_bytes s).take k) ∧
        tree_wf s2 ∧
        tree_pending_bytes s2 = (tree_pending_bytes s).drop k ∧
        (tree_cursor s2).inner_current_position =
          (tree_cursor s).inner_current_position + k ∧
        (tree_cursor s2).length = (tree_cursor s).length := by
  intro s
  induction s with
  | flat c p =>
    intro n hwf hn hne
    obtain ⟨hcl, hlenp⟩ := hwf
    have hlpos : 1 ≤ (tree_pending_bytes (.flat c p)).length :=
      List.length_pos.mpr hne
    rw [tree_pending_length_flat c p ⟨hcl, hlenp⟩] at hlpos
    have hend : c.inner_current_position ≠ c.length := by omega
    obtain ⟨m, hm⟩ : ∃ m, min n (c.length - c.inner_current_position) = m := ⟨_, rfl⟩
    have hm1 : 1 ≤ m := hm ▸ le_min hn (by omega)
    have hm2 : m ≤ c.length - c.inner_current_position := hm ▸ min_le_right _ _
    have hchunk : (tree_pending_bytes (.flat c p)).take m =
        (p.drop c.inner_current_position).take m := by
      simp only [tree_pending_bytes, List.take_take]
      rw [min_eq_left hm2]
    refine ⟨m, .flat { c with inner_current_position := c.inner_current_position + m } p,
      hm1, ?_, ?_,
      ⟨by show c.inner_current_position + m ≤ c.length; omega, hlenp⟩, ?_, rfl, rfl⟩
    · rw [tree_pending_length_flat c p ⟨hcl, hlenp⟩]; omega
    · rw [tree_read, if_neg (by omega), if_neg hend, hm, hchunk]
    · show (p.drop (c.inner_current_position + m)).take
            (c.length - (c.inner_current_position + m)) =
          ((p.drop c.inner_current_position).take (c.length - c.inner_current_position)).drop m
      rw [List.drop_take, List.drop_drop]
      congr 1
      omega
  | multi c one two ih1 ih2 =>
    intro n hwf hn hne
    obtain ⟨hw1, hw2, hcl, hsum⟩ := hwf
    have hlpos : 1 ≤ (tree_pending_bytes (.multi c one two)).length :=
      List.length_pos.mpr hne
    simp only [tree_pending_bytes, List.length_append] at hlpos
    have hend : c.inner_current_position ≠ c.length := by omega
    by_cases h1 : tree_pending_bytes one = []
    · have ht1 : (tree_pending_bytes one).length = 0 := by rw [h1]; rfl
      have h2 : tree_pending_bytes two ≠ [] := by
        intro h2
        have : (tree_pending_bytes two).length = 0 := by rw [h2]; rfl
        omega
      obtain ⟨k, two2, hk1, hk2, hr2, hwf2, hp2, hc2, hl2⟩ := ih2 n hw2 hn h2
      have hr1 := tree_read_eof one n hw1 hn h1
      have hck : ((tree_pending_bytes two).take k).length = k := by
        rw [List.length_take]; omega
      have ht2 : (tree_pending_bytes two2).length = (tree_pending_bytes two).length - k := by
        rw [hp2, List.length_drop]
      have hread : tree_read (.multi c one two) n =
          (AZ_ULIB_SUCCESS,
           .multi { c with inner_current_position :=
                      c.inner_current_position + ((tree_pending_bytes two).take k).length }
             one two2,
           (tree_pending_bytes two).take k) := by
        rw [tree_read, if_neg (by omega), if_neg hend, hr1, hr2]
      refine ⟨k, .multi { c with inner_current_position := c.inner_current_position + k }
        one two2, hk1, ?_, ?_,
        ⟨hw1, hwf2, by show c.inner_current_position + k ≤ c.length; omega, ?_⟩, ?_, rfl, rfl⟩
      · simp only [tree_pending_bytes, List.length_append]; omega
      · rw [hread, hck]
        show (AZ_ULIB_SUCCESS,
              UStreamTree.multi { c with inner_current_position := c.inner_current_position + k }
                one two2,
              (tree_pending_bytes two).take k) =
            (AZ_ULIB_SUCCESS,
              UStreamTree.multi { c with inner_current_position := c.inner_current_position + k }
                one two2,
              (tree_pending_bytes one ++ tree_pending_bytes two).take k)
        rw [h1, List.nil_append]
      · show c.inner_current_position + k + (tree_pending_bytes one).length +
            (tree_pending_bytes two2).length ≤ c.length
        omega
      · show tree_pending_bytes one ++ tree_pending_bytes two2 =
            (tree_pending_bytes one ++ tree_pending_bytes two).drop k
        rw [h1, List.nil_append, List.nil_append, hp2]
    · obtain ⟨k, one2, hk1, hk2, hr1, hwf1, hp1, hc1, hl1⟩ := ih1 n hw1 hn h1
      have hck : ((tree_pending_bytes one).take k).length = k := by
        rw [List.length_take]; omega
      have ht1 : (tree_pending_bytes one2).length = (tree_pending_bytes one).length - k := by
        rw [hp1, List.length_drop]
      have hread : tree_read (.multi c one two) n =
          (AZ_ULIB_SUCCESS,
           .multi { c with inner_current_position :=
                      c.inner_current_position + ((tree_pending_bytes one).take k).length }
             one2 two,
           (tree_pending_bytes one).take k) := by
        rw [tree_read, if_neg (by omega), if_neg hend, hr1]
      refine ⟨k, .multi { c with inner_current_position := c.inner_current_position + k }
        one2 two, hk1, ?_, ?_,
        ⟨hwf1, hw2, by show c.inner_current_position + k ≤ c.length; omega, ?_⟩, ?_, rfl, rfl⟩
      · simp only [tree_pending_bytes, List.length_append]; omega
      · rw [hread, hck]
        show (AZ_ULIB_SUCCESS,
              UStreamTree.multi { c with inner_current_position := c.inner_current_position + k }
                one2 two,
              (tree_pending_bytes one).take k) =
            (AZ_ULIB_SUCCESS,
              UStreamTree.multi { c with inner_current_position := c.inner_current_position + k }
                one2 two,
              (tree_pending_bytes one ++ tree_pending_bytes two).take k)
        rw [List.take_append_of_le_length hk2]
      · show c.inner_current_position + k + (tree_pending_bytes one2).length +
            (tree_pending_bytes two).length ≤ c.length
        omega
      · show tree_pending_bytes one2 ++ tree_pending_bytes two =
            (tree_pending_bytes one ++ tree_pending_bytes two).drop k
        rw [hp1, List.drop_append_of_le_length hk2]

/-- Helper: with enough fuel, the read loop on a well-formed tree delivers
exactly its pending bytes. -/
theorem tree_read_all_eq :
    ∀ (fuel : Nat) (s : UStreamTree) (n : Nat), tree_wf s → 1 ≤ n →
      (tree_pending_bytes s).length ≤ fuel →
      tree_read_all s n fuel = tree_pending_bytes s := by
  intro fuel
  induction fuel with
  | zero =>
    intro s n hwf hn hfuel
    rw [tree_read_all]
    exact (List.eq_nil_of_length_eq_zero (by omega)).symm
  | succ f ih =>
    intro s n hwf hn hfuel
    by_cases hemp : tree_pending_bytes s = []
    · have hstep : tree_read_all s n (f + 1) = [] := by
        rw [tree_read_all, tree_read_eof s n hwf hn hemp]
      rw [hstep, hemp]
    · obtain ⟨k, s2, hk1, hk2, hread, hwf2, hp2, _, _⟩ := tree_read_step s n hwf hn hemp
      have hstep : tree_read_all s n (f + 1) =
          (tree_pending_bytes s).take k ++ tree_read_all s2 n f := by
        rw [tree_read_all, hread]
      rw [hstep, ih s2 n hwf2 hn (by rw [hp2, List.length_drop]; omega), hp2,
        List.take_append_drop]

/-- Helper: cloning preserves the undelivered bytes. -/
theorem tree_pending_clone (s : UStreamTree) (offset : Nat) :
    tree_pending_bytes (tree_clone s offset) = tree_pending_bytes s := by
  cases s <;> rfl

/-- Helper: cloning preserves well-formedness. -/
theorem tree_wf_clone (s : UStreamTree) (offset : Nat) (hwf : tree_wf s) :
    tree_wf (tree_clone s offset) := by
  cases s with
  | flat c p => exact hwf
  | multi c one two => exact hwf

/-- Helper: the stream returned by concat is well-formed when its two
arguments are. -/
theorem tree_wf_concat (A B : UStreamTree) (hA : tree_wf A) (hB : tree_wf B) :
    tree_wf (az_ulib_ustream_concat A B) := by
  have hlA := tree_pending_length_le A hA
  have hlB := tree_pending_length_le B hB
  cases A with
  | flat c p =>
    refine ⟨tree_wf_clone _ 0 hA, tree_wf_clone _ _ hB, Nat.zero_le _, ?_⟩
    show 0 + (tree_pending_bytes (tree_clone (.flat c p) 0)).length +
        (tree_pending_bytes (tree_clone B (tree_cursor (.flat c p)).length)).length ≤
      (tree_cursor (.flat c p)).length + (tree_cursor B).length
    rw [tree_pending_clone, tree_pending_clone]
    omega
  | multi c one two =>
    refine ⟨hA, tree_wf_clone _ _ hB, Nat.zero_le _, ?_⟩
    show 0 + (tree_pending_bytes (.multi c one two)).length +
        (tree_pending_bytes (tree_clone B (tree_cursor (.multi c one two)).length)).length ≤
      (tree_cursor (.multi c one two)).length + (tree_cursor B).length
    rw [tree_pending_clone]
    omega

/-- Helper: the undelivered bytes of a concat are those of the first
argument followed by those of the second. -/
theorem tree_pending_concat (A B : UStreamTree) :
    tree_pending_bytes (az_ulib_ustream_concat A B) =
      tree_pending_bytes A ++ tree_pending_bytes B := by
  cases A with
  | flat c p =>
    show tree_pending_bytes (tree_clone (.flat c p) 0) ++
        tree_pending_bytes (tree_clone B _) = _
    rw [tree_pending_clone, tree_pending_clone]
  | multi c one two =>
    show tree_pending_bytes (.multi c one two) ++
        tree_pending_bytes (tree_clone B _) = _
    rw [tree_pending_clone]

/-- A fresh flat-provider stream over a byte content, as produced by the
flat factory: cursor at 0, length equal to the content length. -/
def flat_fresh (b : List Nat) : UStreamTree :=
  .flat { offset_diff := 0, inner_current_position := 0, inner_first_valid_position := 0,
          length := b.length } b

/-- The bytes of `"0123456789"`. -/
def ustream_content_one : List Nat := [48, 49, 50, 51, 52, 53, 54, 55, 56, 57]

/-- The bytes of `"ABCDEFGHIJKLMNOPQRSTUVWXYZ"`. -/
def ustream_content_two : List Nat :=
  [65, 66, 67, 68, 69, 70, 71, 72, 73, 74, 75, 76, 77, 78, 79, 80, 81, 82, 83, 84,
   85, 86, 87, 88, 89, 90]

/-- The bytes of `"abcdefghijklmnopqrstuvwxyz"`. -/
def ustream_content_three : List Nat :=
  [97, 98, 99, 100, 101, 102, 103, 104, 105, 106, 107, 108, 109, 110, 111, 112, 113,
   114, 115, 116, 117, 118, 119, 120, 121, 122]

/-- The composed stream of the compliance scenario:
`concat(concat(flat "0123456789", flat "A..Z"), flat "a..z")`. -/
def scenario_concat : UStreamTree :=
  az_ulib_ustream_concat
    (az_ulib_ustream_concat (flat_fresh ustream_content_one) (flat_fresh ustream_content_two))
    (flat_fresh ustream_content_three)

/-- C2: a full read (repeated reads until the provider stops returning
`SUCCESS`) of `concat(A, B)` yields exactly the bytes of a full read of A
followed by a full read of B, for every pair of well-formed streams, with
the three loops free to use different per-call buffer sizes ≥ 1 (fuel is
only an upper bound on each loop's iterations); and for the three flat
streams of the compliance scenario the composed stream
`concat(concat("0123456789", "A..Z"), "a..z")` reports remaining size 62 at
the start and a full read of it with a 4-byte buffer yields the 62-byte
concatenation — also with surplus fuel, showing the loop stops because the
stream answers `EOF`, not because the fuel runs out. -/
theorem C2_concat_read_equals_sequential :
    (∀ (A B : UStreamTree) (n nA nB fuel fuelA fuelB : Nat),
      tree_wf A → tree_wf B → 1 ≤ n → 1 ≤ nA → 1 ≤ nB →
      (tree_pending_bytes A).length + (tree_pending_bytes B).length ≤ fuel →
      (tree_pending_bytes A).length ≤ fuelA →
      (tree_pending_bytes B).length ≤ fuelB →
      tree_read_all (az_ulib_ustream_concat A B) n fuel =
        tree_read_all A nA fuelA ++ tree_read_all B nB fuelB) ∧
    tree_get_remaining_size scenario_concat = 62 ∧
    tree_read_all scenario_concat 4 62 =
      ustream_content_one ++ ustream_content_two ++ ustream_content_three ∧
    tree_read_all scenario_concat 4 100 =
      ustream_content_one ++ ustream_content_two ++ ustream_content_three := by
  refine ⟨?_, by decide, by decide, by decide⟩
  intro A B n nA nB fuel fuelA fuelB hA hB hn hnA hnB hfuel hfA hfB
  rw [tree_read_all_eq fuel _ n (tree_wf_concat A B hA hB) hn
    (by rw [tree_pending_concat, List.length_append]; omega)]
  rw [tree_pending_concat]
  rw [tree_read_all_eq fuelA A nA hA hnA hfA, tree_read_all_eq fuelB B nB hB hnB hfB]

/-- Witness for C2: the general equation applied to the fresh flat streams
over `"0123456789"` and `"A..Z"`, reading the composite with a 4-byte
buffer and the two components with 7- and 5-byte buffers. -/
theorem C2_concat_read_equals_sequential_witness :
    tree_read_all
      (az_ulib_ustream_concat (flat_fresh ustream_content_one)
        (flat_fresh ustream_content_two)) 4 36 =
      tree_read_all (flat_fresh ustream_content_one) 7 10 ++
        tree_read_all (flat_fresh ustream_content_two) 5 26 :=
  C2_concat_read_equals_sequential.1 (flat_fresh ustream_content_one)
    (flat_fresh ustream_content_two) 4 7 5 36 10 26
    ⟨Nat.zero_le _, rfl⟩ ⟨Nat.zero_le _, rfl⟩ (by decide) (by decide) (by decide)
    (by decide) (by decide) (by decide)
